import Mathlib

/-!
Verification of the message-delivery subsystem of the shopify-levellinked-webhook
bot: the durable outbound message queue (src/src/queue/messageQueue.js), the
webhook ingestion pipeline (src/src/shopify/webhooks.js, src/src/bot.js,
server.js), the offline reconciliation sync (the OfflineOrderSync class and
src/src/shopify/api.js), the scheduled member-engagement producer
(src/src/bot.js processAutoDM and the periodic sweep) and the persistence
layer they share (the Database class and src/src/database/init.js).

The JavaScript source is shallowly embedded: SQL rows become structures, the
tables become lists of rows, timestamps become natural numbers, TEXT columns
become strings, nullable columns become options, and the external
collaborators (the chat client, the storefront REST API, the HMAC primitive)
become explicit function or boolean parameters recording their observable
outcome.
-/

unseal List.merge List.mergeSort

namespace ShopifyBot

/-- Status column of a message_queue row: the TEXT values written by
addMessage, markMessageSent and markMessageFailed. -/
inductive MsgStatus
  | pending
  | sent
  | failed
deriving DecidableEq

/-- One row of the message_queue table (src/src/database/init.js lines 72-86).
Column defaults: status pending, attempts 0, max_attempts 3, priority 0. -/
structure QueuedMessage where
  id : Nat
  type : String
  target_type : String
  target_id : String
  message_data : String
  status : MsgStatus
  attempts : Nat
  max_attempts : Nat
  priority : Int
  created_at : Nat
  scheduled_for : Option Nat
  sent_at : Option Nat
  error_message : Option String
deriving DecidableEq

/-- MessageQueue.addMessage (messageQueue.js lines 12-49): INSERT with status
pending and the schema defaults for attempts and max_attempts; created_at is
the insertion instant and scheduled_for falls back to the insertion instant
when the caller passes none (the expression scheduled_for || new Date()).
The Nat instant abstracts the stored datetime string; the TEXT-level variant
addMessageText below keeps the stored formats, where created_at comes from
the SQL datetime('now') but scheduled_for from toISOString. -/
def addMessage (nextId now : Nat) (type target_type target_id message_data : String)
    (priority : Int) (scheduled_for : Option Nat) : QueuedMessage :=
  { id := nextId
    type := type
    target_type := target_type
    target_id := target_id
    message_data := message_data
    status := MsgStatus.pending
    attempts := 0
    max_attempts := 3
    priority := priority
    created_at := now
    scheduled_for := some (scheduled_for.getD now)
    sent_at := none
    error_message := none }

/-- WHERE clause of the processQueue SELECT (messageQueue.js lines 83-89),
status = pending AND (scheduled_for IS NULL OR scheduled_for <= now), stated
over abstract instants. This variant assumes the stored timestamp and the
clock value share one comparable encoding, which suffices for the retry and
terminality claims because those hold for whatever batch the SELECT returns;
the stored formats are in fact mixed, and the TEXT-level variant textIsDue
below models the raw string comparison the engine actually performs. -/
def isDue (now : Nat) (m : QueuedMessage) : Bool :=
  decide (m.status = MsgStatus.pending) &&
    (match m.scheduled_for with
     | none => true
     | some t => decide (t ≤ now))

/-- ORDER BY priority DESC, created_at ASC of the processQueue SELECT, written
as the comparator handed to the sort: a is served no later than b. -/
def selBefore (a b : QueuedMessage) : Bool :=
  decide (b.priority < a.priority) ||
    (decide (a.priority = b.priority) && decide (a.created_at ≤ b.created_at))

/-- Result set of the processQueue SELECT (messageQueue.js lines 83-91): the
pending rows already due, ordered by priority descending then created_at
ascending, truncated by LIMIT 10. -/
def fetchDue (now : Nat) (q : List QueuedMessage) : List QueuedMessage :=
  ((q.filter (isDue now)).mergeSort selBefore).take 10

/-- markMessageSent (messageQueue.js lines 228-235). -/
def markMessageSent (now : Nat) (m : QueuedMessage) : QueuedMessage :=
  { m with status := MsgStatus.sent, sent_at := some now }

/-- markMessageFailed (messageQueue.js lines 238-245). -/
def markMessageFailed (err : String) (m : QueuedMessage) : QueuedMessage :=
  { m with status := MsgStatus.failed, error_message := some err }

/-- incrementAttempts (messageQueue.js lines 248-255). -/
def incrementAttempts (m : QueuedMessage) : QueuedMessage :=
  { m with attempts := m.attempts + 1 }

/-- Retry ceiling read by the catch branch: message.max_attempts || 3, a
JavaScript or-default that replaces a NULL or zero stored value by 3. -/
def effMaxAttempts (m : QueuedMessage) : Nat :=
  if m.max_attempts = 0 then 3 else m.max_attempts

/-- Catch branch of the processQueue loop (messageQueue.js lines 102-112):
when processing a selected message throws, the message is marked failed if
its attempts counter, as read at selection time, already reached the ceiling;
otherwise only the attempts counter is incremented. -/
def handleProcessFailure (err : String) (m : QueuedMessage) : QueuedMessage :=
  if effMaxAttempts m ≤ m.attempts then markMessageFailed err m
  else incrementAttempts m

/-- Effect of the processQueue loop body on one selected message: a successful
processMessage marks the row sent, a failed delivery throws into the catch
branch. The outcome of the external send is the deliver parameter. -/
def processSelected (deliver : QueuedMessage → Bool) (now : Nat) (err : String)
    (m : QueuedMessage) : QueuedMessage :=
  if deliver m then markMessageSent now m else handleProcessFailure err m

/-- Row-level effect of one drain pass: rows in the selected batch are
processed, every other row is untouched (the UPDATE statements address rows
by primary key, and primary keys are unique). -/
def drainUpdate (deliver : QueuedMessage → Bool) (now : Nat) (err : String)
    (q : List QueuedMessage) (m : QueuedMessage) : QueuedMessage :=
  if m ∈ fetchDue now q then processSelected deliver now err m else m

/-- One full processQueue pass (messageQueue.js lines 80-118) over the table:
the batch is selected once, then each selected row is processed in order. -/
def processQueuePass (deliver : QueuedMessage → Bool) (now : Nat) (err : String)
    (q : List QueuedMessage) : List QueuedMessage :=
  q.map (drainUpdate deliver now err q)

lemma mem_fetchDue {now : Nat} {q : List QueuedMessage} {m : QueuedMessage}
    (h : m ∈ fetchDue now q) : m ∈ q ∧ isDue now m = true := by
  have h1 := List.mem_of_mem_take h
  rw [List.mem_mergeSort] at h1
  exact List.mem_filter.mp h1

lemma fetchDue_singleton {now : Nat} {m : QueuedMessage} (h : isDue now m = true) :
    fetchDue now [m] = [m] := by
  unfold fetchDue
  rw [show List.filter (isDue now) [m] = [m] by simp [h]]
  rw [List.perm_singleton.mp (List.mergeSort_perm [m] selBefore)]
  rfl

lemma processQueuePass_singleton (deliver : QueuedMessage → Bool) (now : Nat)
    (err : String) {m : QueuedMessage} (h : isDue now m = true) :
    processQueuePass deliver now err [m] = [processSelected deliver now err m] := by
  unfold processQueuePass drainUpdate
  simp [fetchDue_singleton h]

lemma always_fail_iterate (m : QueuedMessage) (now : Nat) (err : String)
    (hp : m.status = MsgStatus.pending) (ha : m.attempts = 0)
    (hd : isDue now m = true) :
    ∀ n, n ≤ effMaxAttempts m →
      (processQueuePass (fun _ => false) now err)^[n] [m] = [{ m with attempts := n }] := by
  intro n
  induction n with
  | zero =>
      intro _
      have : ({ m with attempts := 0 } : QueuedMessage) = m := by
        cases m
        simp_all
      simp [this]
  | succ k ih =>
      intro hk
      have hk' : k ≤ effMaxAttempts m := Nat.le_of_succ_le hk
      rw [Function.iterate_succ_apply', ih hk']
      have hdk : isDue now ({ m with attempts := k }) = true := hd
      rw [processQueuePass_singleton _ _ _ hdk]
      have hlt : ¬ effMaxAttempts ({ m with attempts := k }) ≤ k := by
        have : effMaxAttempts ({ m with attempts := k }) = effMaxAttempts m := rfl
        omega
      simp only [processSelected, handleProcessFailure, if_neg, Bool.false_eq_true,
        if_false, hlt, incrementAttempts]

lemma always_fail_terminates (m : QueuedMessage) (now : Nat) (err : String)
    (hp : m.status = MsgStatus.pending) (ha : m.attempts = 0)
    (hd : isDue now m = true) :
    (processQueuePass (fun _ => false) now err)^[effMaxAttempts m + 1] [m]
      = [{ m with
            attempts := effMaxAttempts m
            status := MsgStatus.failed
            error_message := some err }] := by
  rw [Function.iterate_succ_apply',
    always_fail_iterate m now err hp ha hd (effMaxAttempts m) (Nat.le_refl _)]
  have hdk : isDue now ({ m with attempts := effMaxAttempts m }) = true := hd
  rw [processQueuePass_singleton _ _ _ hdk]
  have hge : effMaxAttempts ({ m with attempts := effMaxAttempts m })
      ≤ effMaxAttempts m := Nat.le_refl _
  simp only [processSelected, Bool.false_eq_true, if_false, handleProcessFailure,
    if_pos hge, markMessageFailed]

lemma failed_not_due (now : Nat) (m : QueuedMessage)
    (h : m.status = MsgStatus.failed) : isDue now m = false := by
  simp [isDue, h]

/-- Claim C2, counterexample. The claim states that a message whose delivery
always fails reaches status Failed after exactly maxAttempts (default 3)
delivery attempts. On a fresh message with max_attempts = 3, three drain
passes each select the message and each attempt delivery and fail, yet after
those three failed attempts the status is still pending, not failed; only the
fourth pass, one more delivery attempt, marks it failed. -/
theorem retry_bound_counterexample :
    (((processQueuePass (fun _ => false) 0 "boom")^[3]
        [⟨1, "order", "channel", "500", "payload", MsgStatus.pending, 0, 3, 0, 0,
          some 0, none, none⟩]).map QueuedMessage.status = [MsgStatus.pending])
  ∧ (((processQueuePass (fun _ => false) 0 "boom")^[4]
        [⟨1, "order", "channel", "500", "payload", MsgStatus.pending, 0, 3, 0, 0,
          some 0, none, none⟩]).map QueuedMessage.status = [MsgStatus.failed]) := by
  constructor <;> decide

/-- Claim C2, amended. An always-failing message reaches status Failed after
exactly effMaxAttempts + 1 delivery attempts (one drain pass per attempt),
not after effMaxAttempts of them; its stored attempts counter never exceeds
the ceiling, ending at exactly effMaxAttempts; and a failed message is never
selected by the drain SELECT again and is left untouched by every subsequent
pass (terminal). -/
theorem retry_bound_amended :
    (∀ (deliver : QueuedMessage → Bool) (now : Nat) (err : String)
        (q : List QueuedMessage) (m : QueuedMessage),
        m.status = MsgStatus.failed →
        m ∉ fetchDue now q ∧ drainUpdate deliver now err q m = m)
  ∧ (∀ (deliver : QueuedMessage → Bool) (now : Nat) (err : String)
        (q : List QueuedMessage) (m : QueuedMessage),
        m.attempts ≤ effMaxAttempts m →
        (drainUpdate deliver now err q m).attempts
          ≤ effMaxAttempts (drainUpdate deliver now err q m))
  ∧ (∀ (m : QueuedMessage) (now : Nat) (err : String),
        m.status = MsgStatus.pending → m.attempts = 0 → isDue now m = true →
        ((processQueuePass (fun _ => false) now err)^[effMaxAttempts m] [m]
            = [{ m with attempts := effMaxAttempts m }])
        ∧ ((processQueuePass (fun _ => false) now err)^[effMaxAttempts m + 1] [m]
            = [{ m with
                  attempts := effMaxAttempts m
                  status := MsgStatus.failed
                  error_message := some err }])) := by
  refine ⟨?_, ?_, ?_⟩
  · intro deliver now err q m hf
    have hnot : m ∉ fetchDue now q := by
      intro hmem
      have := (mem_fetchDue hmem).2
      rw [failed_not_due now m hf] at this
      exact Bool.false_ne_true this
    exact ⟨hnot, by simp [drainUpdate, hnot]⟩
  · intro deliver now err q m hle
    unfold drainUpdate
    by_cases hmem : m ∈ fetchDue now q
    · rw [if_pos hmem]
      unfold processSelected
      by_cases hdel : deliver m = true
      · rw [if_pos hdel]
        exact hle
      · rw [if_neg hdel]
        unfold handleProcessFailure
        by_cases hge : effMaxAttempts m ≤ m.attempts
        · rw [if_pos hge]
          exact hle
        · rw [if_neg hge]
          have h1 : (incrementAttempts m).attempts = m.attempts + 1 := rfl
          have h2 : effMaxAttempts (incrementAttempts m) = effMaxAttempts m := rfl
          omega
    · rw [if_neg hmem]
      exact hle
  · intro m now err hp ha hd
    exact ⟨always_fail_iterate m now err hp ha hd (effMaxAttempts m) (Nat.le_refl _),
      always_fail_terminates m now err hp ha hd⟩

/-- Witness for the amended claim C2, instantiated on a fresh default message:
after four passes of always-failing delivery the concrete message is failed
with attempts = 3. -/
theorem retry_bound_amended_witness :
    (processQueuePass (fun _ => false) 0 "boom")^[effMaxAttempts
        ⟨1, "order", "channel", "500", "payload", MsgStatus.pending, 0, 3, 0, 0,
          some 0, none, none⟩ + 1]
      [⟨1, "order", "channel", "500", "payload", MsgStatus.pending, 0, 3, 0, 0,
        some 0, none, none⟩]
    = [⟨1, "order", "channel", "500", "payload", MsgStatus.failed, 3, 3, 0, 0,
        some 0, none, some "boom"⟩] :=
  (retry_bound_amended.2.2
    ⟨1, "order", "channel", "500", "payload", MsgStatus.pending, 0, 3, 0, 0,
      some 0, none, none⟩ 0 "boom" rfl rfl rfl).2

/-- Raw-byte lexicographic comparison of the SQLite BINARY collation (memcmp),
written on the character lists of the compared TEXT values; for the ASCII
datetime strings compared here, byte order and codepoint order coincide. -/
def lexLe : List Char → List Char → Bool
  | [], _ => true
  | _ :: _, [] => false
  | a :: as, b :: bs =>
    if a.toNat < b.toNat then true
    else if b.toNat < a.toNat then false
    else lexLe as bs

/-- TEXT comparison s <= nowStr as the drain SELECT performs it: the DATETIME
declaration gives the column NUMERIC affinity, neither operand parses as a
number, so both operands stay TEXT and compare under BINARY collation. -/
def textLe (a b : String) : Bool :=
  lexLe a.data b.data

/-- TEXT value produced by the SQL expression datetime('now'): UTC date and
clock joined by a space. -/
def sqlDatetime (date time : String) : String :=
  date ++ " " ++ time

/-- TEXT value produced by the JavaScript new Date().toISOString(): UTC date
and clock joined by the letter T, with a millisecond suffix and a Z marker. -/
def isoDatetime (date time millis : String) : String :=
  date ++ "T" ++ time ++ "." ++ millis ++ "Z"

/-- One message_queue row at the TEXT level SQLite actually stores: the
datetime columns hold the exact strings written by the INSERT. -/
structure MsgTextRow where
  id : Nat
  type : String
  target_type : String
  target_id : String
  message_data : String
  status : MsgStatus
  attempts : Nat
  max_attempts : Nat
  priority : Int
  created_at : String
  scheduled_for : Option String
  sent_at : Option String
  error_message : Option String
deriving DecidableEq

/-- WHERE clause of the processQueue SELECT on the TEXT row: status = pending
AND (scheduled_for IS NULL OR scheduled_for <= datetime('now')), the
comparison being raw text order. -/
def textIsDue (nowStr : String) (m : MsgTextRow) : Bool :=
  decide (m.status = MsgStatus.pending) &&
    (match m.scheduled_for with
     | none => true
     | some s => textLe s nowStr)

/-- ORDER BY priority DESC, created_at ASC on the TEXT row; created_at is
written by datetime('now') on every insert, so this column compares
consistently. -/
def textSelBefore (a b : MsgTextRow) : Bool :=
  decide (b.priority < a.priority) ||
    (decide (a.priority = b.priority) && textLe a.created_at b.created_at)

/-- Result set of the processQueue SELECT at the TEXT level: pending rows
whose stored scheduled_for string does not exceed the datetime('now') string,
ordered by priority descending then created_at ascending, LIMIT 10. -/
def textFetchDue (nowStr : String) (q : List MsgTextRow) : List MsgTextRow :=
  ((q.filter (textIsDue nowStr)).mergeSort textSelBefore).take 10

/-- MessageQueue.addMessage at the TEXT level: created_at is written by the
SQL datetime('now') while scheduled_for falls back to the JavaScript
new Date().toISOString(), so the two datetime columns of a fresh row are in
different formats; a caller scheduling a future send passes an ISO string as
well (new Date(...).toISOString()). -/
def addMessageText (nextId : Nat) (nowDate nowTime nowMillis : String)
    (type target_type target_id message_data : String) (priority : Int)
    (scheduled_for : Option String) : MsgTextRow :=
  { id := nextId
    type := type
    target_type := target_type
    target_id := target_id
    message_data := message_data
    status := MsgStatus.pending
    attempts := 0
    max_attempts := 3
    priority := priority
    created_at := sqlDatetime nowDate nowTime
    scheduled_for := some (scheduled_for.getD (isoDatetime nowDate nowTime nowMillis))
    sent_at := none
    error_message := none }

lemma lexLe_trans : ∀ (as bs cs : List Char),
    lexLe as bs = true → lexLe bs cs = true → lexLe as cs = true := by
  intro as
  induction as with
  | nil =>
      intro bs cs h1 h2
      rfl
  | cons a as ih =>
      intro bs cs h1 h2
      cases bs with
      | nil => simp [lexLe] at h1
      | cons b bs =>
        cases cs with
        | nil => simp [lexLe] at h2
        | cons c cs =>
          simp only [lexLe] at h1 h2 ⊢
          by_cases hab : a.toNat < b.toNat
          · by_cases hbc : b.toNat < c.toNat
            · rw [if_pos (show a.toNat < c.toNat by omega)]
            · rw [if_neg hbc] at h2
              by_cases hcb : c.toNat < b.toNat
              · rw [if_pos hcb] at h2
                exact absurd h2 (by simp)
              · rw [if_pos (show a.toNat < c.toNat by omega)]
          · rw [if_neg hab] at h1
            by_cases hba : b.toNat < a.toNat
            · rw [if_pos hba] at h1
              exact absurd h1 (by simp)
            · rw [if_neg hba] at h1
              by_cases hbc : b.toNat < c.toNat
              · rw [if_pos (show a.toNat < c.toNat by omega)]
              · rw [if_neg hbc] at h2
                by_cases hcb : c.toNat < b.toNat
                · rw [if_pos hcb] at h2
                  exact absurd h2 (by simp)
                · rw [if_neg hcb] at h2
                  rw [if_neg (show ¬ a.toNat < c.toNat by omega),
                    if_neg (show ¬ c.toNat < a.toNat by omega)]
                  exact ih bs cs h1 h2

lemma lexLe_total : ∀ (as bs : List Char),
    lexLe as bs = true ∨ lexLe bs as = true := by
  intro as
  induction as with
  | nil =>
      intro bs
      exact Or.inl rfl
  | cons a as ih =>
      intro bs
      cases bs with
      | nil => exact Or.inr rfl
      | cons b bs =>
        simp only [lexLe]
        by_cases hab : a.toNat < b.toNat
        · exact Or.inl (by rw [if_pos hab])
        · by_cases hba : b.toNat < a.toNat
          · exact Or.inr (by rw [if_pos hba])
          · rcases ih bs with h | h
            · exact Or.inl (by rw [if_neg hab, if_neg hba]; exact h)
            · exact Or.inr (by rw [if_neg hba, if_neg hab]; exact h)

lemma textSelBefore_trans (a b c : MsgTextRow) (hab : textSelBefore a b = true)
    (hbc : textSelBefore b c = true) : textSelBefore a c = true := by
  simp only [textSelBefore, Bool.or_eq_true, Bool.and_eq_true,
    decide_eq_true_eq] at hab hbc ⊢
  rcases hab with h1 | ⟨h1, h2⟩
  · rcases hbc with h3 | ⟨h3, h4⟩
    · exact Or.inl (lt_trans h3 h1)
    · exact Or.inl (by rw [← h3]; exact h1)
  · rcases hbc with h3 | ⟨h3, h4⟩
    · exact Or.inl (by rw [h1]; exact h3)
    · exact Or.inr ⟨h1.trans h3, lexLe_trans _ _ _ h2 h4⟩

lemma textSelBefore_total (a b : MsgTextRow) :
    (textSelBefore a b || textSelBefore b a) = true := by
  simp only [textSelBefore, Bool.or_eq_true, Bool.and_eq_true, decide_eq_true_eq]
  rcases lt_trichotomy a.priority b.priority with h | h | h
  · exact Or.inr (Or.inl h)
  · rcases lexLe_total a.created_at.data b.created_at.data with hc | hc
    · exact Or.inl (Or.inr ⟨h, hc⟩)
    · exact Or.inr (Or.inr ⟨h.symm, hc⟩)
  · exact Or.inl (Or.inl h)

lemma mem_textFetchDue {nowStr : String} {q : List MsgTextRow} {m : MsgTextRow}
    (h : m ∈ textFetchDue nowStr q) : m ∈ q ∧ textIsDue nowStr m = true := by
  have h1 := List.mem_of_mem_take h
  rw [List.mem_mergeSort] at h1
  exact List.mem_filter.mp h1

/-- Row inserted by addMessage at 14:00:00 UTC on 2026-10-12 with a send
scheduled one hour ahead, the schedule passed the way callers construct it,
as an ISO string. -/
def schedRow : MsgTextRow :=
  addMessageText 1 "2026-10-12" "14:00:00" "000" "order" "channel" "500" "p" 0
    (some (isoDatetime "2026-10-12" "15:00:00" "000"))

/-- Lower-priority TEXT row created earlier; due, its ISO schedule lying on
the previous UTC day. -/
def txtA : MsgTextRow :=
  ⟨1, "order", "channel", "500", "a", MsgStatus.pending, 0, 3, 0,
    sqlDatetime "2026-10-12" "10:00:00",
    some (isoDatetime "2026-10-11" "09:00:00" "000"), none, none⟩

/-- Higher-priority TEXT row created later; due, its ISO schedule lying on
the previous UTC day. -/
def txtB : MsgTextRow :=
  ⟨2, "order", "channel", "500", "b", MsgStatus.pending, 0, 3, 5,
    sqlDatetime "2026-10-12" "11:00:00",
    some (isoDatetime "2026-10-11" "09:30:00" "000"), none, none⟩

/-- Claim C3, counterexample. The claim states a message with scheduledFor =
now+1h is selected at now+1h+eps. addMessage stores scheduled_for as an ISO
string with a T separator while the SELECT compares it against the
space-separated datetime('now') as raw text; the letter T exceeds the space
byte, so the stored value compares greater than every clock string of the
same UTC date, and the pending row scheduled for 15:00:00 is not selected at
15:00:01, one second past its schedule, nor at any later instant of that UTC
day. -/
theorem text_scheduling_counterexample :
    schedRow.status = MsgStatus.pending
  ∧ schedRow.scheduled_for = some "2026-10-12T15:00:00.000Z"
  ∧ textFetchDue (sqlDatetime "2026-10-12" "15:00:01") [schedRow] = []
  ∧ textFetchDue (sqlDatetime "2026-10-12" "23:59:59") [schedRow] = [] := by
  refine ⟨by decide, by decide, by decide, by decide⟩

/-- Claim C3, amended. The drain SELECT returns only pending rows whose
stored scheduled_for string does not exceed the datetime('now') string in raw
text order, at most ten per pass, ordered by priority descending then
created_at ascending, and a due higher-priority later-created row is served
before a due lower-priority earlier one; but because addMessage stores
scheduled_for in the ISO T format while the SELECT compares it against the
space-separated datetime('now'), a row scheduled for now+1h is still not
selected at now+1h+eps on the same UTC day and only becomes due once the
clock string passes the stored date, here at the next UTC midnight. -/
theorem textFetchDue_selection_policy :
    (∀ (nowStr : String) (q : List MsgTextRow) (m : MsgTextRow),
        m ∈ textFetchDue nowStr q →
        m ∈ q ∧ m.status = MsgStatus.pending
          ∧ ∀ s, m.scheduled_for = some s → textLe s nowStr = true)
  ∧ (∀ (nowStr : String) (q : List MsgTextRow),
        (textFetchDue nowStr q).length ≤ 10)
  ∧ (∀ (nowStr : String) (q : List MsgTextRow),
        (textFetchDue nowStr q).Pairwise (fun a b => textSelBefore a b = true))
  ∧ (∀ (nextId : Nat) (d t ms ty tt ti md : String) (pr : Int),
        (addMessageText nextId d t ms ty tt ti md pr none).scheduled_for
            = some (isoDatetime d t ms)
        ∧ (addMessageText nextId d t ms ty tt ti md pr none).created_at
            = sqlDatetime d t)
  ∧ (textFetchDue (sqlDatetime "2026-10-12" "15:00:01") [schedRow] = []
      ∧ textFetchDue (sqlDatetime "2026-10-13" "00:00:00") [schedRow] = [schedRow])
  ∧ textFetchDue (sqlDatetime "2026-10-12" "12:00:00") [txtA, txtB]
      = [txtB, txtA] := by
  refine ⟨?_, ?_, ?_, ?_, ⟨by decide, by decide⟩, by decide⟩
  · intro nowStr q m hm
    obtain ⟨hq, hdue⟩ := mem_textFetchDue hm
    simp only [textIsDue, Bool.and_eq_true, decide_eq_true_eq] at hdue
    refine ⟨hq, hdue.1, ?_⟩
    intro s hs
    have h2 := hdue.2
    rw [hs] at h2
    exact h2
  · intro nowStr q
    exact List.length_take_le _ _
  · intro nowStr q
    have hs := @List.sorted_mergeSort MsgTextRow textSelBefore textSelBefore_trans
      textSelBefore_total (q.filter (textIsDue nowStr))
    exact hs.sublist (List.take_sublist _ _)
  · intro nextId d t ms ty tt ti md pr
    exact ⟨rfl, rfl⟩

/-- Witness for the amended claim C3, applying the membership conjunct to the
higher-priority row of the concrete due pair. -/
theorem textFetchDue_selection_policy_witness :
    txtB ∈ [txtA, txtB] ∧ txtB.status = MsgStatus.pending :=
  ⟨(textFetchDue_selection_policy.1 (sqlDatetime "2026-10-12" "12:00:00")
      [txtA, txtB] txtB (by decide)).1,
    (textFetchDue_selection_policy.1 (sqlDatetime "2026-10-12" "12:00:00")
      [txtA, txtB] txtB (by decide)).2.1⟩

/-- One line item of a Shopify order, restricted to the projected fields the
sync and the webhook handlers read. -/
structure LineItem where
  product_id : Nat
  name : String
  price : String
  image_url : Option String
deriving DecidableEq

/-- One order as returned by the Shopify REST orders endpoint under the field
projection used by getOrdersCreatedAfter. -/
structure ShopOrder where
  id : Nat
  order_number : String
  email : String
  total_price : String
  currency_code : String
  financial_status : String
  created_at : Nat
  line_items : List LineItem
deriving DecidableEq

/-- One row of the processed_orders table (src/src/database/init.js lines
195-203): shopify_order_id is UNIQUE NOT NULL, notification_sent defaults to
FALSE and sync_source defaults to webhook. -/
structure ProcessedOrderRow where
  shopify_order_id : Nat
  order_number : String
  processed_at : Nat
  notification_sent : Bool
  sync_source : String
deriving DecidableEq

/-- Database.isOrderProcessed (the Database class, markOrderProcessed section):
SELECT shopify_order_id FROM processed_orders WHERE shopify_order_id = ?,
coerced to a boolean. -/
def isOrderProcessed (tbl : List ProcessedOrderRow) (oid : Nat) : Bool :=
  tbl.any (fun r => r.shopify_order_id == oid)

/-- Database.markOrderProcessed: INSERT OR IGNORE INTO processed_orders; the
UNIQUE constraint on shopify_order_id makes the insert a no-op whenever a row
with the same external order id already exists. -/
def markOrderProcessed (tbl : List ProcessedOrderRow) (oid : Nat)
    (orderNumber syncSource : String) (now : Nat) : List ProcessedOrderRow :=
  if tbl.any (fun r => r.shopify_order_id == oid) then tbl
  else tbl ++ [⟨oid, orderNumber, now, false, syncSource⟩]

/-- Result object of OfflineOrderSync.syncOfflineOrders. -/
structure SyncResult where
  success : Bool
  ordersFound : Nat
  ordersToProcess : Nat
  orders : List ShopOrder
deriving DecidableEq

/-- OfflineOrderSync.syncOfflineOrders, diff step (lines 32-60 of the class):
given the orders fetched from the API and the processed_orders table, the
empty fetch returns zero counts; otherwise every fetched order is checked
with isOrderProcessed and the unprocessed ones form the candidate set. The
connectivity probe and the fetch itself are upstream of this step and appear
here as the fetched argument. -/
def syncOfflineOrders (fetched : List ShopOrder) (tbl : List ProcessedOrderRow) :
    SyncResult :=
  if fetched.length = 0 then
    { success := true, ordersFound := 0, ordersToProcess := 0, orders := [] }
  else
    let unprocessed := fetched.filter (fun o => !(isOrderProcessed tbl o.id))
    { success := true
      ordersFound := fetched.length
      ordersToProcess := unprocessed.length
      orders := unprocessed }

/-- One page of the Shopify REST orders endpoint for a created_at_min query:
the upstream holds the full order history and answers with at most limit
matching orders, the first page of the result set. -/
def shopifyOrdersPage (upstream : List ShopOrder) (created_at_min : Nat)
    (limit : Nat) : List ShopOrder :=
  ((upstream.filter (fun o => decide (created_at_min ≤ o.created_at))).take limit)

/-- ShopifyAPIService.getOrdersCreatedAfter (src/src/shopify/api.js lines
22-56): a single client.get on path orders with created_at_min = startDate
and limit 250, returning response.body.orders. No continuation header or
page_info token is read and no further request is made. -/
def getOrdersCreatedAfter (upstream : List ShopOrder) (startDate : Nat) :
    List ShopOrder :=
  shopifyOrdersPage upstream startDate 250

/-- Claim C7: syncOfflineOrders partitions the fetched orders by the
ProcessedOrderMarker check; the reported ordersToProcess equals the number of
fetched orders without a marker and the candidate set contains exactly the
fetched orders whose external ids have no marker. The final conjunct is the
ten-fetched, six-marked instance of the claim, reporting toProcess = 4 with
exactly the four unmarked ids. -/
theorem syncOfflineOrders_diff_correct :
    (∀ (fetched : List ShopOrder) (tbl : List ProcessedOrderRow),
        (syncOfflineOrders fetched tbl).success = true)
  ∧ (∀ (fetched : List ShopOrder) (tbl : List ProcessedOrderRow),
        (syncOfflineOrders fetched tbl).ordersFound = fetched.length)
  ∧ (∀ (fetched : List ShopOrder) (tbl : List ProcessedOrderRow),
        (syncOfflineOrders fetched tbl).ordersToProcess
          = (fetched.filter (fun o => !(isOrderProcessed tbl o.id))).length)
  ∧ (∀ (fetched : List ShopOrder) (tbl : List ProcessedOrderRow) (o : ShopOrder),
        o ∈ (syncOfflineOrders fetched tbl).orders ↔
          o ∈ fetched ∧ isOrderProcessed tbl o.id = false)
  ∧ ((syncOfflineOrders
        ((List.range 10).map (fun n =>
          ⟨n + 1, "", "", "", "", "paid", 0, []⟩))
        ((List.range 6).map (fun n => ⟨n + 1, "", 0, false, "webhook"⟩))).ordersToProcess
        = 4
      ∧ (syncOfflineOrders
          ((List.range 10).map (fun n =>
            ⟨n + 1, "", "", "", "", "paid", 0, []⟩))
          ((List.range 6).map (fun n => ⟨n + 1, "", 0, false, "webhook"⟩))).orders.map
            ShopOrder.id = [7, 8, 9, 10]) := by
  refine ⟨?_, ?_, ?_, ?_, by decide⟩
  · intro fetched tbl
    unfold syncOfflineOrders
    by_cases h : fetched.length = 0 <;> simp [h]
  · intro fetched tbl
    unfold syncOfflineOrders
    by_cases h : fetched.length = 0 <;> simp [h]
  · intro fetched tbl
    unfold syncOfflineOrders
    by_cases h : fetched.length = 0
    · rw [if_pos h, List.length_eq_zero.mp h]
      rfl
    · simp [h]
  · intro fetched tbl o
    unfold syncOfflineOrders
    by_cases h : fetched.length = 0
    · rw [if_pos h, List.length_eq_zero.mp h]
      simp
    · simp [h, List.mem_filter]

/-- Witness for claim C7, applying the count conjunct to a one-order fetch
over the empty marker table. -/
theorem syncOfflineOrders_diff_correct_witness :
    (syncOfflineOrders [⟨1, "", "", "", "", "paid", 0, []⟩] []).ordersToProcess
      = (([⟨1, "", "", "", "", "paid", 0, []⟩] : List ShopOrder).filter
          (fun o => !(isOrderProcessed [] o.id))).length :=
  syncOfflineOrders_diff_correct.2.2.1 [⟨1, "", "", "", "", "paid", 0, []⟩] []

/-- Claim C10: markOrderProcessed is idempotent on the external order id.
A second call with the same shopify_order_id, whatever its order number,
sync source or timestamp, is the identity on the table, so the fields stored
by the first call survive unchanged; and starting from a table holding no row
for that id, the two calls leave exactly one such row. -/
theorem markOrderProcessed_idempotent :
    (∀ (tbl : List ProcessedOrderRow) (oid : Nat) (n1 s1 : String) (t1 : Nat)
        (n2 s2 : String) (t2 : Nat),
        markOrderProcessed (markOrderProcessed tbl oid n1 s1 t1) oid n2 s2 t2
          = markOrderProcessed tbl oid n1 s1 t1)
  ∧ (∀ (tbl : List ProcessedOrderRow) (oid : Nat) (n1 s1 : String) (t1 : Nat)
        (n2 s2 : String) (t2 : Nat),
        tbl.countP (fun r => r.shopify_order_id == oid) = 0 →
        ((markOrderProcessed (markOrderProcessed tbl oid n1 s1 t1) oid n2 s2 t2).countP
            (fun r => r.shopify_order_id == oid)) = 1) := by
  have key : ∀ (tbl : List ProcessedOrderRow) (oid : Nat) (n1 s1 : String) (t1 : Nat),
      (markOrderProcessed tbl oid n1 s1 t1).any (fun r => r.shopify_order_id == oid)
        = true := by
    intro tbl oid n1 s1 t1
    unfold markOrderProcessed
    by_cases h : tbl.any (fun r => r.shopify_order_id == oid) = true
    · rw [if_pos h]
      exact h
    · rw [if_neg h]
      simp
  have skip : ∀ (tbl : List ProcessedOrderRow) (oid : Nat) (n s : String) (t : Nat),
      tbl.any (fun r => r.shopify_order_id == oid) = true →
      markOrderProcessed tbl oid n s t = tbl := by
    intro tbl oid n s t h
    unfold markOrderProcessed
    rw [if_pos h]
  constructor
  · intro tbl oid n1 s1 t1 n2 s2 t2
    exact skip _ _ _ _ _ (key tbl oid n1 s1 t1)
  · intro tbl oid n1 s1 t1 n2 s2 t2 h0
    have hany : tbl.any (fun r => r.shopify_order_id == oid) = false := by
      rw [List.any_eq_false]
      intro r hr
      have := List.countP_eq_zero.mp h0 r hr
      simpa using this
    rw [skip _ _ _ _ _ (key tbl oid n1 s1 t1)]
    unfold markOrderProcessed
    rw [if_neg (by rw [hany]; exact Bool.false_ne_true)]
    rw [List.countP_append, h0]
    simp

/-- Witness for claim C10, instantiated on the empty table with order id 5:
the second call leaves one row carrying the fields of the first call. -/
theorem markOrderProcessed_idempotent_witness :
    (([] : List ProcessedOrderRow).countP (fun r => r.shopify_order_id == 5) = 0)
  ∧ ((markOrderProcessed (markOrderProcessed [] 5 "1001" "webhook" 10) 5 "9999"
        "api_sync" 20).countP (fun r => r.shopify_order_id == 5) = 1) :=
  ⟨by decide, markOrderProcessed_idempotent.2 [] 5 "1001" "webhook" 10 "9999"
      "api_sync" 20 (by decide)⟩

/-- Upstream order history with 251 orders inside the sync window, one more
than the page bound of the orders endpoint. -/
def bigUpstream : List ShopOrder :=
  (List.range 251).map (fun n => ⟨n, "", "", "", "", "paid", 1, []⟩)

/-- Claim C8, counterexample. The claim states the fetch step retrieves all
orders created at or after the window start by following pagination tokens
until exhausted. Against an upstream holding 251 orders inside the window,
getOrdersCreatedAfter returns only the bounded first page of 250, and order
250 of the upstream is never fetched, so the diff step never considers it. -/
theorem getOrdersCreatedAfter_pagination_counterexample :
    bigUpstream.length = 251
  ∧ (getOrdersCreatedAfter bigUpstream 0).length = 250
  ∧ (⟨250, "", "", "", "", "paid", 1, []⟩ : ShopOrder) ∈ bigUpstream
  ∧ (⟨250, "", "", "", "", "paid", 1, []⟩ : ShopOrder) ∉
      getOrdersCreatedAfter bigUpstream 0 := by
  have hfilter : bigUpstream.filter (fun o => decide (0 ≤ o.created_at)) = bigUpstream :=
    List.filter_eq_self.mpr (fun o _ => by simp)
  have htake : getOrdersCreatedAfter bigUpstream 0
      = (List.range 250).map (fun n => (⟨n, "", "", "", "", "paid", 1, []⟩ : ShopOrder)) := by
    unfold getOrdersCreatedAfter shopifyOrdersPage
    rw [hfilter]
    unfold bigUpstream
    rw [← List.map_take, List.take_range]
    rfl
  refine ⟨by simp [bigUpstream], ?_, ?_, ?_⟩
  · rw [htake]
    simp
  · exact List.mem_map.mpr ⟨250, List.mem_range.mpr (by omega), rfl⟩
  · rw [htake]
    intro hmem
    obtain ⟨k, hk, he⟩ := List.mem_map.mp hmem
    have hid : k = 250 := congrArg ShopOrder.id he
    rw [List.mem_range] at hk
    omega

/-- Claim C8, amended. getOrdersCreatedAfter performs exactly one bounded page
request: it returns at most 250 orders, every returned order is an upstream
order inside the window, and the result is the complete in-window set exactly
when that set fits in one page; when more than 250 in-window orders exist the
remainder is silently dropped, as the counterexample shows. -/
theorem getOrdersCreatedAfter_single_page :
    (∀ (upstream : List ShopOrder) (startDate : Nat),
        (getOrdersCreatedAfter upstream startDate).length ≤ 250)
  ∧ (∀ (upstream : List ShopOrder) (startDate : Nat) (o : ShopOrder),
        o ∈ getOrdersCreatedAfter upstream startDate →
        o ∈ upstream ∧ startDate ≤ o.created_at)
  ∧ (∀ (upstream : List ShopOrder) (startDate : Nat),
        (upstream.filter (fun o => decide (startDate ≤ o.created_at))).length ≤ 250 →
        getOrdersCreatedAfter upstream startDate
          = upstream.filter (fun o => decide (startDate ≤ o.created_at))) := by
  refine ⟨?_, ?_, ?_⟩
  · intro upstream startDate
    exact List.length_take_le _ _
  · intro upstream startDate o hmem
    have h1 := List.mem_of_mem_take hmem
    have h2 := List.mem_filter.mp h1
    exact ⟨h2.1, by simpa using h2.2⟩
  · intro upstream startDate hle
    unfold getOrdersCreatedAfter shopifyOrdersPage
    exact List.take_of_length_le hle

/-- Witness for the amended claim C8: a one-order upstream fits in a single
page and is fetched completely. -/
theorem getOrdersCreatedAfter_single_page_witness :
    getOrdersCreatedAfter [⟨7, "", "", "", "", "paid", 5, []⟩] 2
      = List.filter (fun o => decide (2 ≤ o.created_at))
          [⟨7, "", "", "", "", "paid", 5, []⟩] :=
  getOrdersCreatedAfter_single_page.2.2 [⟨7, "", "", "", "", "paid", 5, []⟩] 2
    (by decide)

/-- One row of the orders table as written by Database.trackOrder. -/
structure OrderRow where
  shopify_id : Nat
  email : String
  order_number : String
  total_price : String
  currency : String
  financial_status : String
deriving DecidableEq

/-- One notification message sent to the configured notification channel by
processOrderLineItem, recorded by the order it announces and the line-item
product name it mentions. -/
structure SentNote where
  order_id : Nat
  product_name : String
deriving DecidableEq

/-- Durable state touched by the webhook ingestion path: the orders table, the
processed_orders table, the notifications already pushed to the channel and a
count of recorded analytics events. -/
structure IngestState where
  orders : List OrderRow
  processed_orders : List ProcessedOrderRow
  sentNotes : List SentNote
  analyticsEvents : Nat
deriving DecidableEq

/-- Database.trackOrder: INSERT OR REPLACE INTO orders keyed by the unique
external order id, so an existing row for the same id is replaced. -/
def trackOrder (rows : List OrderRow) (r : OrderRow) : List OrderRow :=
  (rows.filter (fun x => !(x.shopify_id == r.shopify_id))) ++ [r]

/-- Projection of a webhook order payload onto the orders-table row written by
trackOrder inside handleOrderCreated. -/
def orderRowOf (o : ShopOrder) : OrderRow :=
  ⟨o.id, o.email, o.order_number, o.total_price, o.currency_code, o.financial_status⟩

/-- Notification produced for one line item by processOrderLineItem. -/
def lineNote (o : ShopOrder) (li : LineItem) : SentNote :=
  ⟨o.id, li.name⟩

/-- ShopifyWebhooks.handleOrderCreated (src/src/shopify/webhooks.js lines
29-60): track the order, send one channel notification per line item when the
notification channel resolves, and record one analytics event. The function
reads and writes nothing in processed_orders. -/
def handleOrderCreated (channelFound : Bool) (s : IngestState) (o : ShopOrder) :
    IngestState :=
  { s with
    orders := trackOrder s.orders (orderRowOf o)
    sentNotes := s.sentNotes ++
      (if channelFound then o.line_items.map (lineNote o) else [])
    analyticsEvents := s.analyticsEvents + 1 }

/-- Outcome object returned to the Express route by
ShopifyWebhooks.handleWebhook. -/
structure WebhookResult where
  success : Bool
  error : Option String
deriving DecidableEq

/-- ShopifyWebhooks.handleWebhook (src/src/shopify/webhooks.js lines 183-224):
reject on signature failure, then branch on the topic; order-created and
order-updated payloads run handleOrderCreated only when financial_status is
paid; every other recognized or unrecognized topic is acknowledged without a
state change. The verification outcome is the verifyOk parameter; exceptions
thrown inside the handler are caught there and also return success false,
which this total model has no failing branch for. -/
def handleWebhook (channelFound : Bool) (s : IngestState) (verifyOk : Bool)
    (topic : String) (o : ShopOrder) : IngestState × WebhookResult :=
  if verifyOk = false then
    (s, { success := false, error := some "Invalid signature" })
  else if topic = "orders/create" ∨ topic = "orders/updated" then
    (if o.financial_status = "paid" then
      (handleOrderCreated channelFound s o, { success := true, error := none })
    else (s, { success := true, error := none }))
  else if topic = "orders/fulfilled" then
    (s, { success := true, error := none })
  else if topic = "products/create" ∨ topic = "products/update" then
    (s, { success := true, error := none })
  else
    (s, { success := true, error := none })

/-- Express POST /webhook route of src/src/bot.js (lines 100-129): 400 when
the signature or topic header is missing, 503 when the webhook subsystem is
not yet constructed, 200 when handleWebhook reports success and 400 when it
reports failure; the surrounding catch answers 500 only when the route body
itself throws, which the routeThrows parameter records. -/
def webhookRoute (hasSignature hasTopic ready routeThrows : Bool)
    (outcome : WebhookResult) : Nat :=
  if hasSignature = false ∨ hasTopic = false then 400
  else if ready = false then 503
  else if routeThrows then 500
  else if outcome.success then 200
  else 400

/-- Empty ingestion state: fresh tables and no notification sent. -/
def emptyIngestState : IngestState := ⟨[], [], [], 0⟩

/-- Demonstration line item for the ingestion claims. -/
def demoLineItem : LineItem := ⟨111, "Widget", "19.99", none⟩

/-- Demonstration paid order with a single line item. -/
def demoOrder : ShopOrder :=
  ⟨9001, "1001", "a.b", "19.99", "USD", "paid", 100, [demoLineItem]⟩

/-- Claim C1, counterexample. The claim states the ingestion path checks the
ProcessedOrderMarker before enqueueing and that a redelivered order webhook
yields exactly one marker row and no second notification. Delivering the same
paid order-created webhook twice through handleWebhook leaves zero
processed_orders rows and pushes the line-item notification twice: the
webhook path neither consults nor writes the marker table. -/
theorem webhook_idempotency_counterexample :
    ((handleWebhook true
        (handleWebhook true emptyIngestState true "orders/create" demoOrder).1
        true "orders/create" demoOrder).1).processed_orders.length = 0
  ∧ ((handleWebhook true
        (handleWebhook true emptyIngestState true "orders/create" demoOrder).1
        true "orders/create" demoOrder).1).sentNotes.length = 2 := by
  constructor <;> decide

/-- Claim C1, amended. The webhook ingestion path performs no idempotency
check against ProcessedOrderMarker and writes no marker: handleOrderCreated
and handleWebhook leave processed_orders unchanged for every input, and a
redelivered paid order webhook appends the per-line-item notifications again.
The marker check exists only in the reconciliation sync path, whose candidate
set contains only unmarked orders. -/
theorem webhook_ingestion_not_idempotent :
    (∀ (ch : Bool) (s : IngestState) (o : ShopOrder),
        (handleOrderCreated ch s o).processed_orders = s.processed_orders)
  ∧ (∀ (ch : Bool) (s : IngestState) (v : Bool) (t : String) (o : ShopOrder),
        ((handleWebhook ch s v t o).1).processed_orders = s.processed_orders)
  ∧ (∀ (s : IngestState) (o : ShopOrder),
        o.financial_status = "paid" →
        ((handleWebhook true s true "orders/create" o).1).sentNotes
          = s.sentNotes ++ o.line_items.map (lineNote o))
  ∧ (∀ (fetched : List ShopOrder) (tbl : List ProcessedOrderRow) (o : ShopOrder),
        o ∈ (syncOfflineOrders fetched tbl).orders →
        isOrderProcessed tbl o.id = false) := by
  refine ⟨?_, ?_, ?_, ?_⟩
  · intro ch s o
    rfl
  · intro ch s v t o
    unfold handleWebhook
    by_cases hv : v = false
    · simp [hv]
    · by_cases ht : t = "orders/create" ∨ t = "orders/updated"
      · by_cases hp : o.financial_status = "paid"
        · simp [hv, ht, hp, handleOrderCreated]
        · simp [hv, ht, hp]
      · by_cases hf : t = "orders/fulfilled"
        · simp [hv, ht, hf]
        · by_cases hpr : t = "products/create" ∨ t = "products/update"
          · simp [hv, ht, hf, hpr]
          · simp [hv, ht, hf, hpr]
  · intro s o hp
    simp [handleWebhook, hp, handleOrderCreated]
  · intro fetched tbl o hmem
    unfold syncOfflineOrders at hmem
    by_cases h : fetched.length = 0
    · rw [if_pos h] at hmem
      simp at hmem
    · rw [if_neg h] at hmem
      have := (List.mem_filter.mp hmem).2
      simpa using this

/-- Witness for the amended claim C1, applied to the demonstration order on
the empty state: the first delivery already appends the notification while
the marker table stays empty. -/
theorem webhook_ingestion_not_idempotent_witness :
    ((handleWebhook true emptyIngestState true "orders/create" demoOrder).1).sentNotes
      = emptyIngestState.sentNotes ++ demoOrder.line_items.map (lineNote demoOrder) :=
  webhook_ingestion_not_idempotent.2.2.1 emptyIngestState demoOrder rfl

/-- Claim C5, counterexample. The claim states the endpoint answers 401 when
signature verification fails. With both headers present and the subsystem
ready, a verification failure makes handleWebhook report success false and
the route answers 400, never 401. -/
theorem webhook_route_counterexample :
    webhookRoute true true true false
      (handleWebhook true emptyIngestState false "orders/create" demoOrder).2 = 400
  ∧ webhookRoute true true true false
      (handleWebhook true emptyIngestState false "orders/create" demoOrder).2 ≠ 401 := by
  constructor <;> decide

/-- Claim C5, amended. The bot webhook route answers 200 on success, 400 when
a required header is missing, 503 when the subsystem is not initialized and
500 when the route body itself throws; however a signature-verification
failure surfaces as a handleWebhook failure result and is answered 400, not
401, and internal failures caught inside handleWebhook are likewise answered
400, so 401 is never produced by this route. -/
theorem webhook_route_statuses :
    (∀ (ht rd rt : Bool) (o : WebhookResult), webhookRoute false ht rd rt o = 400)
  ∧ (∀ (hs rd rt : Bool) (o : WebhookResult), webhookRoute hs false rd rt o = 400)
  ∧ (∀ (rt : Bool) (o : WebhookResult), webhookRoute true true false rt o = 503)
  ∧ (∀ (o : WebhookResult), webhookRoute true true true true o = 500)
  ∧ (∀ (o : WebhookResult), o.success = true →
        webhookRoute true true true false o = 200)
  ∧ (∀ (o : WebhookResult), o.success = false →
        webhookRoute true true true false o = 400)
  ∧ (∀ (ch : Bool) (s : IngestState) (t : String) (o : ShopOrder),
        ((handleWebhook ch s false t o).2).success = false) := by
  refine ⟨?_, ?_, ?_, ?_, ?_, ?_, ?_⟩
  · intro ht rd rt o
    simp [webhookRoute]
  · intro hs rd rt o
    unfold webhookRoute
    by_cases hhs : hs = false <;> simp [hhs]
  · intro rt o
    simp [webhookRoute]
  · intro o
    simp [webhookRoute]
  · intro o h
    simp [webhookRoute, h]
  · intro o h
    simp [webhookRoute, h]
  · intro ch s t o
    rfl

/-- Witness for the amended claim C5: the failure result produced by a bad
signature on the demonstration order is answered 400. -/
theorem webhook_route_statuses_witness :
    webhookRoute true true true false
      (handleWebhook true emptyIngestState false "orders/create" demoOrder).2 = 400 :=
  webhook_route_statuses.2.2.2.2.2.1
    (handleWebhook true emptyIngestState false "orders/create" demoOrder).2 rfl

/-- Signature verifier of the standalone webhook server (server.js lines
90-101): when the shared secret environment variable is unset the function
returns true immediately, skipping verification; otherwise the received
signature is compared against the sha256-prefixed keyed digest of the body.
The keyed-hash primitive is the hmacHex parameter. -/
def verifyWebhook_server (hmacHex : String → String → String)
    (secret : Option String) (body signature : String) : Bool :=
  match secret with
  | none => true
  | some s => signature == "sha256=" ++ hmacHex s body

/-- Signature verifier of the ShopifyWebhooks class (src/src/shopify/webhooks.js
lines 12-26): the same keyed-digest comparison, but with the secret unset the
crypto call throws, the catch returns false, and verification fails closed. -/
def verifyWebhook_cls (hmacHex : String → String → String)
    (secret : Option String) (body signature : String) : Bool :=
  match secret with
  | none => false
  | some s => signature == "sha256=" ++ hmacHex s body

/-- Webhook route of the standalone server (server.js lines 67-87): a failed
verification answers 401 and sends nothing; a passed verification processes
the order and answers 200. The pair records the HTTP status and whether the
order was forwarded to the channel. -/
def serverWebhookRoute (verified : Bool) : Nat × Bool :=
  if verified = false then (401, false) else (200, true)

/-- Stand-in for the external HMAC-SHA256 hex digest in concrete instances. -/
def hmacDemo : String → String → String := fun _ _ => "d"

/-- Claim C6, counterexample. The claim states that with the shared secret
unset, verification does not silently pass in production paths and that
pass-through happens only under an explicit non-production configuration
flag. The server.js verifier takes no such flag: with the secret unset it
accepts an arbitrary bogus signature and the route processes the event and
answers 200. -/
theorem verify_fails_closed_counterexample :
    verifyWebhook_server hmacDemo none "rawbody" "totally-bogus" = true
  ∧ serverWebhookRoute
      (verifyWebhook_server hmacDemo none "rawbody" "totally-bogus") = (200, true) := by
  constructor <;> decide

/-- Claim C6, amended. With the shared secret unset, the server.js verifier
passes every signature unconditionally, a silent default with no
configuration flag guarding it, while the ShopifyWebhooks class verifier
fails closed and rejects everything; in both paths a verification failure
rejects the event without processing it: the standalone route answers 401 and
forwards nothing, and handleWebhook leaves the state untouched. -/
theorem verify_secret_unset_behavior :
    (∀ (h : String → String → String) (body sig : String),
        verifyWebhook_server h none body sig = true)
  ∧ (∀ (h : String → String → String) (body sig : String),
        verifyWebhook_cls h none body sig = false)
  ∧ (∀ (v : Bool), v = false → serverWebhookRoute v = (401, false))
  ∧ (∀ (ch : Bool) (s : IngestState) (t : String) (o : ShopOrder),
        (handleWebhook ch s false t o).1 = s) := by
  refine ⟨?_, ?_, ?_, ?_⟩
  · intro h body sig
    rfl
  · intro h body sig
    rfl
  · intro v hv
    simp [serverWebhookRoute, hv]
  · intro ch s t o
    rfl

/-- Witness for the amended claim C6: a concrete failed verification is
answered 401 with nothing forwarded. -/
theorem verify_secret_unset_behavior_witness :
    serverWebhookRoute false = (401, false) :=
  verify_secret_unset_behavior.2.2.1 false rfl

/-- One row of the member_tracking table (src/src/database/init.js lines
55-69), restricted to the columns the engagement producer reads and writes. -/
structure MemberRow where
  user_id : Nat
  username : String
  joined_at : Nat
  is_verified : Bool
  has_closed_dms_role : Bool
  welcome_dm_sent : Bool
  dm_sent_at : Option Nat
  still_in_server : Bool
deriving DecidableEq

/-- One row of the embed_templates table as read by the auto-DM template query
(template_type auto_dm, is_active TRUE). -/
structure EmbedTemplate where
  id : Nat
  template_type : String
  is_active : Bool
deriving DecidableEq

/-- One INSERT into message_queue as issued by the engagement producer through
messageQueue.addMessage, restricted to the routing fields. -/
structure QueueInsert where
  type : String
  target_type : String
  target_id : Nat
  priority : Int
deriving DecidableEq

/-- External facts processAutoDM observes at fire time: whether the guild
member fetch succeeds, whether the live role cache contains the verified
role, and the result of the active auto-DM template query. -/
structure AutoDMEnv where
  memberInGuild : Bool
  liveVerifiedRole : Bool
  template : Option EmbedTemplate

/-- Bot.processAutoDM (src/src/bot.js lines 362-511). The member fetch failing
marks the member as departed and stops; a missing tracking row, an already
sent welcome DM, the closed-DMs role on the tracking row or a missing live
verified role each stop with no enqueue; otherwise one auto_dm queue insert
targeting the member is made, and only the default-template branch then sets
welcome_dm_sent and dm_sent_at on the tracking row, while the template branch
returns the row unchanged. The result pairs the queue inserts with the
member row as left in member_tracking. -/
def processAutoDM (env : AutoDMEnv) (row : Option MemberRow) (now : Nat) :
    List QueueInsert × Option MemberRow :=
  if env.memberInGuild = false then
    ([], row.map (fun r => { r with still_in_server := false }))
  else
    match row with
    | none => ([], none)
    | some md =>
      if md.welcome_dm_sent then ([], some md)
      else if md.has_closed_dms_role then ([], some md)
      else if env.liveVerifiedRole = false then ([], some md)
      else
        match env.template with
        | none =>
            ([{ type := "auto_dm", target_type := "user", target_id := md.user_id,
                priority := 1 }],
             some { md with welcome_dm_sent := true, dm_sent_at := some now })
        | some _ =>
            ([{ type := "auto_dm", target_type := "user", target_id := md.user_id,
                priority := 1 }],
             some md)

/-- Comparator of the ORDER BY joined_at ASC clause of getMembersForAutoDM. -/
def joinedBefore (a b : MemberRow) : Bool :=
  decide (a.joined_at ≤ b.joined_at)

/-- Database.getMembersForAutoDM: SELECT FROM member_tracking WHERE
still_in_server AND NOT has_closed_dms_role AND NOT welcome_dm_sent AND
is_verified, ORDER BY joined_at ASC. -/
def getMembersForAutoDM (tbl : List MemberRow) : List MemberRow :=
  (tbl.filter (fun m =>
    m.still_in_server && !m.has_closed_dms_role && !m.welcome_dm_sent
      && m.is_verified)).mergeSort joinedBefore

/-- Database.getMember: SELECT FROM member_tracking WHERE user_id = ?. -/
def getMember (tbl : List MemberRow) (uid : Nat) : Option MemberRow :=
  tbl.find? (fun r => r.user_id == uid)

/-- Member batch one sweep tick operates on (src/src/bot.js lines 550-573):
nothing when the auto_dm_enabled setting is off, otherwise the eligible
members truncated to the per-hour bound. -/
def autoDmSweepTargets (enabled : Bool) (maxPerHour : Nat) (tbl : List MemberRow) :
    List MemberRow :=
  if enabled = false then [] else (getMembersForAutoDM tbl).take maxPerHour

/-- Queue inserts produced by one sweep tick: processAutoDM runs for each
selected member on the tracking row looked up by its user id, with the
environment that member observes at fire time. -/
def autoDmSweepInserts (enabled : Bool) (maxPerHour : Nat) (tbl : List MemberRow)
    (envOf : Nat → AutoDMEnv) (now : Nat) : List QueueInsert :=
  (autoDmSweepTargets enabled maxPerHour tbl).flatMap
    (fun m => (processAutoDM (envOf m.user_id) (getMember tbl m.user_id) now).1)

/-- Per-member timer gate of Bot.trackNewMember (src/src/bot.js lines 260-268):
the 65 minute auto-DM timer is scheduled only for joiners without the
closed-DMs role. -/
def scheduleAutoDMOnJoin (hasClosedDms : Bool) : Bool :=
  !hasClosedDms

lemma processAutoDM_insert_shape (env : AutoDMEnv) (row : Option MemberRow)
    (now : Nat) (ins : QueueInsert) (h : ins ∈ (processAutoDM env row now).1) :
    ∃ md, row = some md ∧ md.has_closed_dms_role = false
      ∧ md.welcome_dm_sent = false ∧ ins.target_id = md.user_id := by
  unfold processAutoDM at h
  by_cases hg : env.memberInGuild = false
  · rw [if_pos hg] at h
    simp at h
  · rw [if_neg hg] at h
    match row with
    | none => simp at h
    | some md =>
      simp only at h
      by_cases hw : md.welcome_dm_sent
      · rw [if_pos hw] at h
        simp at h
      · rw [if_neg hw] at h
        by_cases hc : md.has_closed_dms_role
        · rw [if_pos hc] at h
          simp at h
        · rw [if_neg hc] at h
          by_cases hv : env.liveVerifiedRole = false
          · rw [if_pos hv] at h
            simp at h
          · rw [if_neg hv] at h
            refine ⟨md, rfl, Bool.eq_false_iff.mpr hc, Bool.eq_false_iff.mpr hw, ?_⟩
            match htm : env.template with
            | none =>
                rw [htm] at h
                simp at h
                rw [h]
            | some t =>
                rw [htm] at h
                simp at h
                rw [h]

/-- Claim C4: a member whose tracking row carries has_closed_dms_role true is
never enqueued for an auto-DM. The fire-time check of processAutoDM returns
no insert for such a row, the sweep SELECT excludes such rows, a sweep tick
over a table with unique user ids produces no insert targeting such a member,
and the join-time path does not even schedule the timer when the role is
present at join. -/
theorem closed_dms_never_enqueued :
    (∀ (env : AutoDMEnv) (row : Option MemberRow) (now : Nat) (md : MemberRow),
        row = some md → md.has_closed_dms_role = true →
        (processAutoDM env row now).1 = [])
  ∧ (∀ (tbl : List MemberRow) (m : MemberRow),
        m ∈ getMembersForAutoDM tbl → m.has_closed_dms_role = false)
  ∧ (∀ (enabled : Bool) (maxPerHour : Nat) (tbl : List MemberRow)
        (envOf : Nat → AutoDMEnv) (now : Nat) (md : MemberRow),
        (tbl.map MemberRow.user_id).Nodup → md ∈ tbl →
        md.has_closed_dms_role = true →
        ∀ ins ∈ autoDmSweepInserts enabled maxPerHour tbl envOf now,
          ins.target_id ≠ md.user_id)
  ∧ scheduleAutoDMOnJoin true = false := by
  refine ⟨?_, ?_, ?_, rfl⟩
  · intro env row now md hrow hc
    subst hrow
    unfold processAutoDM
    by_cases hg : env.memberInGuild = false
    · rw [if_pos hg]
    · rw [if_neg hg]
      simp only
      by_cases hw : md.welcome_dm_sent
      · rw [if_pos hw]
      · rw [if_neg hw, if_pos hc]
  · intro tbl m hm
    have h1 := List.mem_mergeSort.mp hm
    have h2 := (List.mem_filter.mp h1).2
    simp only [Bool.and_eq_true, Bool.not_eq_true'] at h2
    exact h2.1.1.2
  · intro enabled maxPerHour tbl envOf now md hnodup hmem hc ins hins heq
    unfold autoDmSweepInserts at hins
    obtain ⟨m, hmtg, hinsm⟩ := List.mem_flatMap.mp hins
    obtain ⟨md2, hrow, hc2, _, htgt⟩ :=
      processAutoDM_insert_shape _ _ _ _ hinsm
    unfold getMember at hrow
    have hmd2mem : md2 ∈ tbl := List.mem_of_find?_eq_some hrow
    have hmd2id : md2.user_id = m.user_id := by
      have hp := List.find?_some hrow
      simpa using hp
    have : md2.user_id = md.user_id := by
      rw [htgt] at heq
      exact heq
    have hsame : md2 = md :=
      List.inj_on_of_nodup_map hnodup hmd2mem hmem this
    rw [hsame] at hc2
    rw [hc2] at hc
    exact Bool.false_ne_true hc

/-- Witness for claim C4: a concrete tracking row with the closed-DMs role and
every other eligibility field favourable produces no insert at fire time. -/
theorem closed_dms_never_enqueued_witness :
    (processAutoDM ⟨true, true, none⟩
      (some ⟨42, "alice", 0, true, true, false, none, true⟩) 0).1 = [] :=
  closed_dms_never_enqueued.1 ⟨true, true, none⟩
    (some ⟨42, "alice", 0, true, true, false, none, true⟩) 0
    ⟨42, "alice", 0, true, true, false, none, true⟩ rfl rfl

/-- Active auto-DM template used by the claim C9 evaluation. -/
def tmpl9 : EmbedTemplate := ⟨1, "auto_dm", true⟩

/-- Fire-time environment of the claim C9 evaluation: member present in the
guild, live verified role present, active template found. -/
def env9 : AutoDMEnv := ⟨true, true, some tmpl9⟩

/-- Tracking row of the claim C9 evaluation: verified, DMs open, welcome DM
not yet sent, still in the server. -/
def md9 : MemberRow := ⟨42, "alice", 0, true, false, false, none, true⟩

/-- Claim C9, evaluation at the failing input. With an active auto_dm template
and every gate passing, processAutoDM enqueues the welcome auto-DM but
returns the tracking row unchanged: welcome_dm_sent stays false, the member
remains in the eligible set of the sweep SELECT, and running processAutoDM
again on the row it left behind enqueues the same welcome auto-DM a second
time. The default-template branch of the same function does set
welcome_dm_sent, so the template branch omitting the update contradicts the
producer design the claim describes. -/
theorem template_path_skips_welcome_mark :
    (processAutoDM env9 (some md9) 0).1
      = [{ type := "auto_dm", target_type := "user", target_id := 42, priority := 1 }]
  ∧ (processAutoDM env9 (some md9) 0).2 = some md9
  ∧ md9 ∈ getMembersForAutoDM [md9]
  ∧ (processAutoDM env9 ((processAutoDM env9 (some md9) 0).2) 300).1
      = [{ type := "auto_dm", target_type := "user", target_id := 42, priority := 1 }] := by
  refine ⟨by decide, by decide, ?_, by decide⟩
  have : getMembersForAutoDM [md9] = [md9] := by
    unfold getMembersForAutoDM
    rw [show List.filter _ [md9] = [md9] by decide]
    exact List.perm_singleton.mp (List.mergeSort_perm [md9] joinedBefore)
  rw [this]
  exact List.mem_singleton.mpr rfl

end ShopifyBot
